import Mathlib

/-!
Shallow embedding of the ESP32 circadian-light controller
(`src/esp_code/src/main.cpp`) — the schedule engine (`checkSchedule`),
suppression windows, the gesture decoder (`handleButtonClicks`),
rotary handling, the WebSocket direct-state-set handler, the routine
store (`handleRoutineSync` upsert/delete) and the output mapper
(`applyOutput`).  C `int` is modelled as `Int`; the C float computation
of the alarm ramp is modelled by exact integer arithmetic (all the
quantities involved are small nonnegative integers, and `(int)` casts
of nonnegative values truncate, i.e. floor).
-/

namespace Circadian

/-- Lighting mode enumeration (`enum Mode`): 0 = warm, 1 = white, 2 = both. -/
inductive Mode where
  | warm
  | white
  | both
deriving DecidableEq, Repr

/-- `struct Routine` from main.cpp. `mode` is stored as the raw int 0..2,
as in the source. -/
structure Routine where
  id : Int
  enabled : Bool
  start_hour : Int
  start_minute : Int
  end_hour : Int
  end_minute : Int
  brightness : Int
  mode : Int
deriving DecidableEq, Repr

/-- `struct Alarm` from main.cpp. -/
structure Alarm where
  id : Int
  enabled : Bool
  wake_hour : Int
  wake_minute : Int
  start_hour : Int
  start_minute : Int
  duration_minutes : Int
deriving DecidableEq, Repr

/-- The C cast `(Mode)m` for the validated values 0..2. -/
def intToMode (m : Int) : Mode :=
  if m = 0 then Mode.warm else if m = 1 then Mode.white else Mode.both

/-- Arduino `constrain(x, lo, hi)`. -/
def constrainI (x lo hi : Int) : Int :=
  if x < lo then lo else if x > hi then hi else x

/-- `isWithinTimeRange`: same-day window when `end > start`, otherwise the
window wraps midnight; both boundaries inclusive (main.cpp lines 749-758). -/
def isWithinTimeRange (startHour startMinute endHour endMinute currentTime : Int) : Bool :=
  let startTime := startHour * 60 + startMinute
  let endTime := endHour * 60 + endMinute
  if endTime > startTime then
    decide (currentTime ≥ startTime ∧ currentTime ≤ endTime)
  else
    decide (currentTime ≥ startTime ∨ currentTime ≤ endTime)

/-- The inline routine window test of the `checkSchedule` loop
(main.cpp lines 980-989); identical logic to `isWithinTimeRange`. -/
def routineInRange (r : Routine) (currentTime : Int) : Bool :=
  isWithinTimeRange r.start_hour r.start_minute r.end_hour r.end_minute currentTime

/-- The inline alarm window test of the `checkSchedule` alarm loop
(main.cpp line 1062): `currentTime >= startTime && currentTime <= wakeTime`,
non-wrapping. -/
def alarmInRange (a : Alarm) (currentTime : Int) : Bool :=
  decide (currentTime ≥ a.start_hour * 60 + a.start_minute ∧
          currentTime ≤ a.wake_hour * 60 + a.wake_minute)

/-- `applyOutput` channel computation (main.cpp lines 211-249), as the pure
mapping from `{isOn, brightness, mode}` to the two inverted PWM channels. -/
def computeChannels (isOn : Bool) (brightness : Int) (mode : Mode) : Int × Int :=
  if !isOn then
    (15, 15)
  else
    let safeBrightness := max 1 brightness
    let invertedBrightness := 15 - safeBrightness
    match mode with
    | Mode.warm => (invertedBrightness, 15)
    | Mode.white => (15, invertedBrightness)
    | Mode.both => (invertedBrightness, invertedBrightness)

/-- The whole mutable global state of main.cpp that the embedded handlers
touch.  The fixed-capacity `routines[]`/`alarms[]` arrays with their counts
are modelled as lists (first `routine_count` entries, in storage order). -/
structure SysState where
  routines : List Routine
  alarms : List Alarm
  routineActive : Bool
  wasOffBeforeRoutine : Bool
  activeRoutineId : Int
  originalBrightness : Int
  originalMode : Mode
  originalIsOn : Bool
  lastRoutineMinute : Int
  alarmActive : Bool
  wasOffBeforeAlarm : Bool
  activeAlarmId : Int
  alarmOriginalBrightness : Int
  alarmOriginalMode : Mode
  alarmOriginalIsOn : Bool
  lastAlarmMinute : Int
  mode : Mode
  brightness : Int
  isOn : Bool
  routineSuppressed : Bool
  suppressedRoutine : Routine
  alarmSuppressed : Bool
  suppressedAlarm : Alarm
  sunSyncActive : Bool
  sunSyncDisabledByHardware : Bool
deriving DecidableEq, Repr

/-- Zero-initialised `Routine` (the `= {}` initialiser of `suppressedRoutine`). -/
def zeroRoutine : Routine :=
  { id := 0, enabled := false, start_hour := 0, start_minute := 0,
    end_hour := 0, end_minute := 0, brightness := 0, mode := 0 }

/-- Zero-initialised `Alarm` (the `= {}` initialiser of `suppressedAlarm`). -/
def zeroAlarm : Alarm :=
  { id := 0, enabled := false, wake_hour := 0, wake_minute := 0,
    start_hour := 0, start_minute := 0, duration_minutes := 0 }

/-- The global initial state of main.cpp (initialisers at lines 76-120). -/
def initState : SysState :=
  { routines := [], alarms := [],
    routineActive := false, wasOffBeforeRoutine := false, activeRoutineId := -1,
    originalBrightness := 8, originalMode := Mode.both, originalIsOn := true,
    lastRoutineMinute := -1,
    alarmActive := false, wasOffBeforeAlarm := false, activeAlarmId := -1,
    alarmOriginalBrightness := 8, alarmOriginalMode := Mode.both,
    alarmOriginalIsOn := true, lastAlarmMinute := -1,
    mode := Mode.both, brightness := 0, isOn := true,
    routineSuppressed := false, suppressedRoutine := zeroRoutine,
    alarmSuppressed := false, suppressedAlarm := zeroAlarm,
    sunSyncActive := false, sunSyncDisabledByHardware := false }

/-- `isManualControlLocked` (main.cpp lines 725-727). -/
def isManualControlLocked (s : SysState) : Bool :=
  s.routineActive || s.alarmActive || s.sunSyncActive

/-- `updateSuppressionWindows` (main.cpp lines 760-776): clear each
suppression flag once the current time leaves the captured window. -/
def updateSuppressionWindows (s : SysState) (currentTime : Int) : SysState :=
  let s1 :=
    if s.routineSuppressed &&
        !(isWithinTimeRange s.suppressedRoutine.start_hour s.suppressedRoutine.start_minute
            s.suppressedRoutine.end_hour s.suppressedRoutine.end_minute currentTime) then
      { s with routineSuppressed := false }
    else s
  if s1.alarmSuppressed &&
      !(isWithinTimeRange s1.suppressedAlarm.start_hour s1.suppressedAlarm.start_minute
          s1.suppressedAlarm.wake_hour s1.suppressedAlarm.wake_minute currentTime) then
    { s1 with alarmSuppressed := false }
  else s1

/-- The body of the routine in-range branch of `checkSchedule`
(main.cpp lines 999-1032): once-per-minute re-apply gate, pre-automation
snapshot on fresh start, then force the routine's settings. -/
def applyRoutineTick (s : SysState) (r : Routine) (currentMinute : Int) : SysState :=
  let shouldActivate :=
    !s.routineActive || !(s.activeRoutineId == r.id) || !(s.lastRoutineMinute == currentMinute)
  if shouldActivate then
    let s1 :=
      if !s.routineActive then
        { s with originalIsOn := s.isOn, originalBrightness := s.brightness,
                 originalMode := s.mode, wasOffBeforeRoutine := !s.isOn }
      else s
    { s1 with routineActive := true, activeRoutineId := r.id,
              lastRoutineMinute := currentMinute,
              brightness := r.brightness, mode := intToMode r.mode, isOn := true }
  else s

/-- The alarm ramp brightness, `(int)(constrain(progress, 0, 1) * 15)` with
`progress = (currentTime - startTime) / duration` (main.cpp lines 1093-1098).
The C float computation is modelled by exact arithmetic: the `(int)` cast of
the nonnegative product truncates, i.e. takes the floor. -/
def alarmBrightness (startTime duration currentTime : Int) : Int :=
  let elapsed := currentTime - startTime
  if elapsed ≤ 0 then 0
  else if duration ≤ elapsed then 15
  else Int.ofNat ((15 * elapsed.toNat) / duration.toNat)

/-- The body of the alarm in-range branch of `checkSchedule`
(main.cpp lines 1070-1106). -/
def applyAlarmTick (s : SysState) (a : Alarm) (currentTime currentMinute : Int) : SysState :=
  let shouldUpdate :=
    !s.alarmActive || !(s.activeAlarmId == a.id) || !(s.lastAlarmMinute == currentMinute)
  if shouldUpdate then
    let s1 :=
      if !s.alarmActive then
        { s with alarmOriginalIsOn := s.isOn, alarmOriginalBrightness := s.brightness,
                 alarmOriginalMode := s.mode, wasOffBeforeAlarm := !s.isOn }
      else s
    { s1 with alarmActive := true, activeAlarmId := a.id,
              lastAlarmMinute := currentMinute,
              brightness := alarmBrightness (a.start_hour * 60 + a.start_minute)
                              a.duration_minutes currentTime,
              mode := Mode.both, isOn := true }
  else s

/-- The routine scan loop of `checkSchedule` (main.cpp lines 977-1035).
`some s'` models an early `return` with resulting state `s'` (either the
suppressed-skip return or the one-routine-applied return); `none` models
falling through the loop (no enabled routine in range, so
`foundActiveRoutine` stayed false). -/
def routineLoop (s : SysState) (currentTime currentMinute : Int) :
    List Routine → Option SysState
  | [] => none
  | r :: rest =>
    if r.enabled && routineInRange r currentTime then
      if s.routineSuppressed && s.suppressedRoutine.id == r.id then
        some s
      else
        some (applyRoutineTick s r currentMinute)
    else
      routineLoop s currentTime currentMinute rest

/-- The alarm scan loop of `checkSchedule` (main.cpp lines 1056-1109),
with the same `Option` convention as `routineLoop`. -/
def alarmLoop (s : SysState) (currentTime currentMinute : Int) :
    List Alarm → Option SysState
  | [] => none
  | a :: rest =>
    if a.enabled && alarmInRange a currentTime then
      if s.alarmSuppressed && s.suppressedAlarm.id == a.id then
        some s
      else
        some (applyAlarmTick s a currentTime currentMinute)
    else
      alarmLoop s currentTime currentMinute rest

/-- `checkSchedule` (main.cpp lines 948-1131), given a valid clock reading
`currentHour:currentMinute` (the no-valid-time early return is outside the
embedded state machine). -/
def checkSchedule (s : SysState) (currentHour currentMinute : Int) : SysState :=
  let currentTime := currentHour * 60 + currentMinute
  let s0 := updateSuppressionWindows s currentTime
  match routineLoop s0 currentTime currentMinute s0.routines with
  | some s' => s'
  | none =>
    if s0.routineActive then
      -- Routine ended: clear markers, keep the lamp state the routine left
      { s0 with routineActive := false, activeRoutineId := -1,
                wasOffBeforeRoutine := false, lastRoutineMinute := -1 }
    else
      match alarmLoop s0 currentTime currentMinute s0.alarms with
      | some s' => s'
      | none =>
        if s0.alarmActive then
          -- Alarm ended: lock in full brightness mixed mode
          { s0 with isOn := true, brightness := 15, mode := Mode.both,
                    alarmActive := false, activeAlarmId := -1,
                    wasOffBeforeAlarm := false, lastAlarmMinute := -1 }
        else s0

/-- First enabled routine whose window contains `currentTime` — the routine
the scan loop stops at. -/
def firstEnabledRoutine (rs : List Routine) (currentTime : Int) : Option Routine :=
  rs.find? (fun r => r.enabled && routineInRange r currentTime)

/-- First enabled alarm whose `[start, wake]` window contains `currentTime`. -/
def firstEnabledAlarm (as : List Alarm) (currentTime : Int) : Option Alarm :=
  as.find? (fun a => a.enabled && alarmInRange a currentTime)

/-! ## WebSocket message handlers -/

/-- A decoded direct state-set message: the optional `brightness`, `mode`
and `on` keys of `onWSMsg` (main.cpp lines 282-317).  `none` = field absent
(or of the wrong JSON type). -/
structure StateSetMsg where
  brightness : Option Int
  mode : Option Int
  onVal : Option Bool
deriving DecidableEq, Repr

/-- The brightness block of `onWSMsg` (main.cpp lines 284-299):
`constrain` to [0,15], force ≥ 1 when the lamp is currently on, and store
when changed. -/
def wsBrightnessStep (s : SysState) (mb : Option Int) : SysState :=
  match mb with
  | some b =>
    let newBrightness := constrainI b 0 15
    let newBrightness := if s.isOn && decide (newBrightness < 1) then 1 else newBrightness
    if newBrightness ≠ s.brightness then { s with brightness := newBrightness } else s
  | none => s

/-- The mode block of `onWSMsg` (main.cpp lines 300-308). -/
def wsModeStep (s : SysState) (mm : Option Int) : SysState :=
  match mm with
  | some m =>
    let newMode := intToMode (constrainI m 0 2)
    if newMode ≠ s.mode then { s with mode := newMode } else s
  | none => s

/-- The on/off block of `onWSMsg` (main.cpp lines 309-317). -/
def wsOnStep (s : SysState) (mo : Option Bool) : SysState :=
  match mo with
  | some o => if o ≠ s.isOn then { s with isOn := o } else s
  | none => s

/-- The direct state-set part of `onWSMsg` (main.cpp lines 282-317):
brightness is `constrain`ed to [0,15] and forced to ≥ 1 when the lamp is
currently on, then mode is clamped to [0,2], then `on` is applied —
in that source order, with no manual-lock check anywhere on this path. -/
def applyStateSet (s : SysState) (msg : StateSetMsg) : SysState :=
  wsOnStep (wsModeStep (wsBrightnessStep s msg.brightness) msg.mode) msg.onVal

/-- The field validation performed by `handleRoutineSync` upsert via
`readIntField`/`readBoolField` (main.cpp lines 389-420). -/
def routineValid (r : Routine) : Bool :=
  decide (0 ≤ r.id ∧ r.id ≤ 32767 ∧
          0 ≤ r.start_hour ∧ r.start_hour ≤ 23 ∧
          0 ≤ r.start_minute ∧ r.start_minute ≤ 59 ∧
          0 ≤ r.end_hour ∧ r.end_hour ≤ 23 ∧
          0 ≤ r.end_minute ∧ r.end_minute ≤ 59 ∧
          0 ≤ r.brightness ∧ r.brightness ≤ 15 ∧
          0 ≤ r.mode ∧ r.mode ≤ 2)

/-- The field validation performed by `handleAlarmSync` upsert
(main.cpp lines 507-533). -/
def alarmValid (a : Alarm) : Bool :=
  decide (0 ≤ a.id ∧ a.id ≤ 32767 ∧
          0 ≤ a.wake_hour ∧ a.wake_hour ≤ 23 ∧
          0 ≤ a.wake_minute ∧ a.wake_minute ≤ 59 ∧
          0 ≤ a.start_hour ∧ a.start_hour ≤ 23 ∧
          0 ≤ a.start_minute ∧ a.start_minute ≤ 59 ∧
          1 ≤ a.duration_minutes ∧ a.duration_minutes ≤ 240)

/-- Overwrite-in-place of the first stored routine with the given id
(the index-scan of `handleRoutineSync` upsert, main.cpp lines 423-429 and
435-443); `none` when no stored routine has that id. -/
def replaceRoutineById : List Routine → Routine → Option (List Routine)
  | [], _ => none
  | r :: rest, d =>
    if r.id == d.id then some (d :: rest)
    else
      match replaceRoutineById rest d with
      | some rest' => some (r :: rest')
      | none => none

/-- `MAX_ROUTINES` (main.cpp line 74). -/
def MAX_ROUTINES : Nat := 10

/-- `MAX_ALARMS` (main.cpp line 75). -/
def MAX_ALARMS : Nat := 5

/-- The upsert action of `handleRoutineSync` on an already-validated record
(main.cpp lines 422-459): overwrite in place if the id exists, append while
capacity remains, otherwise fail with "Storage full" leaving the store
untouched. -/
def upsertRoutine (rs : List Routine) (d : Routine) : Except String (List Routine) :=
  match replaceRoutineById rs d with
  | some rs' => Except.ok rs'
  | none =>
    if rs.length < MAX_ROUTINES then Except.ok (rs ++ [d])
    else Except.error "Storage full"

/-- Overwrite-in-place of the first stored alarm with the given id
(main.cpp lines 536-542 and 548-555). -/
def replaceAlarmById : List Alarm → Alarm → Option (List Alarm)
  | [], _ => none
  | a :: rest, d =>
    if a.id == d.id then some (d :: rest)
    else
      match replaceAlarmById rest d with
      | some rest' => some (a :: rest')
      | none => none

/-- The upsert action of `handleAlarmSync` (main.cpp lines 535-562). -/
def upsertAlarm (as : List Alarm) (d : Alarm) : Except String (List Alarm) :=
  match replaceAlarmById as d with
  | some as' => Except.ok as'
  | none =>
    if as.length < MAX_ALARMS then Except.ok (as ++ [d])
    else Except.error "Storage full"

/-- The delete action of `handleRoutineSync` (main.cpp lines 461-483):
remove the first routine with the given id, compacting order. -/
def deleteRoutineById : List Routine → Int → List Routine
  | [], _ => []
  | r :: rest, i => if r.id == i then rest else r :: deleteRoutineById rest i

/-- The delete action of `handleAlarmSync` (main.cpp lines 564-586). -/
def deleteAlarmById : List Alarm → Int → List Alarm
  | [], _ => []
  | a :: rest, i => if a.id == i then rest else a :: deleteAlarmById rest i

/-- `handleSunSyncState` (main.cpp lines 836-853); `sourceIsHardware` models
`strcmp(source, "hardware") == 0`. -/
def handleSunSyncState (s : SysState) (active sourceIsHardware : Bool) : SysState :=
  let s1 := { s with sunSyncActive := active }
  if active then { s1 with sunSyncDisabledByHardware := false }
  else if sourceIsHardware then { s1 with sunSyncDisabledByHardware := true }
  else { s1 with sunSyncDisabledByHardware := false }

/-! ## Gesture decoding and hardware input -/

/-- `findRoutineById` (main.cpp lines 729-737). -/
def findRoutineById (rs : List Routine) (i : Int) : Option Routine :=
  if i < 0 then none else rs.find? (fun r => r.id == i)

/-- `findAlarmById` (main.cpp lines 739-747). -/
def findAlarmById (as : List Alarm) (i : Int) : Option Alarm :=
  if i < 0 then none else as.find? (fun a => a.id == i)

/-- `handleTripleClick` (main.cpp lines 855-909): suppress whichever
automation is active for its current window, clear its markers, and force
sun-sync off (the blink/broadcast side effects are outside the state). -/
def handleTripleClick (s : SysState) : SysState :=
  let s1 :=
    if s.routineActive then
      let s1a :=
        match findRoutineById s.routines s.activeRoutineId with
        | some r => { s with suppressedRoutine := r, routineSuppressed := true }
        | none => { s with routineSuppressed := false }
      { s1a with routineActive := false, activeRoutineId := -1,
                 lastRoutineMinute := -1, wasOffBeforeRoutine := false }
    else s
  let s2 :=
    if s1.alarmActive then
      let s2a :=
        match findAlarmById s1.alarms s1.activeAlarmId with
        | some a => { s1 with suppressedAlarm := a, alarmSuppressed := true }
        | none => { s1 with alarmSuppressed := false }
      { s2a with alarmActive := false, activeAlarmId := -1,
                 lastAlarmMinute := -1, wasOffBeforeAlarm := false }
    else s1
  if s2.sunSyncActive then
    { s2 with sunSyncActive := false, sunSyncDisabledByHardware := true }
  else s2

/-- A resolved gesture of the multi-click decoder. -/
inductive Gesture where
  | nothing
  | single
  | double
  | triple
deriving DecidableEq, Repr

/-- The effect of a resolved gesture on the system state (the resolution
branches of `handleButtonClicks`, main.cpp lines 1244-1247 and 1253-1278).
The booleans returned pair the new state with whether `applyOutput` was
invoked (output recomputation). -/
def applyGestureO (s : SysState) (g : Gesture) : SysState × Bool :=
  match g with
  | Gesture.nothing => (s, false)
  | Gesture.triple => (handleTripleClick s, true)
  | Gesture.double =>
    if isManualControlLocked s then (s, false)
    else ({ s with mode := intToMode ((modeToInt s.mode + 1) % 3) }, true)
  | Gesture.single =>
    if isManualControlLocked s then (s, false)
    else ({ s with isOn := !s.isOn }, true)
where
  /-- The numeric value of `Mode` used by `(Mode)((mode + 1) % 3)`. -/
  modeToInt : Mode → Int
    | Mode.warm => 0
    | Mode.white => 1
    | Mode.both => 2

/-- `handleRotaryEncoder` (main.cpp lines 1196-1221) for one detected
encoder movement `delta = pos - lastPos` (nonzero): ignored while manual
control is locked, otherwise brightness steps by `delta` clamped to
`[1,15]` when the lamp is on and `[0,15]` when off.  The returned boolean
records whether `applyOutput` was invoked. -/
def applyRotary (s : SysState) (delta : Int) : SysState × Bool :=
  if delta = 0 then (s, false)
  else if isManualControlLocked s then (s, false)
  else
    let minBrightness : Int := if s.isOn then 1 else 0
    let maxBrightness : Int := 15
    let newBrightness := constrainI (s.brightness + delta * 1) minBrightness maxBrightness
    if newBrightness ≠ s.brightness then ({ s with brightness := newBrightness }, true)
    else (s, false)

/-- `DEBOUNCE_MS` (main.cpp line 128). -/
def DEBOUNCE_MS : Nat := 35

/-- `MULTI_CLICK_WINDOW_MS` (main.cpp line 130). -/
def MULTI_CLICK_WINDOW_MS : Nat := 600

/-- The decoder state of `handleButtonClicks`: the function statics
`prevPressed`/`lastChange` plus the globals `clickCount`, `firstClickTime`
and `lastClickReleaseTime`.  Times are `millis()` values (monotone). -/
structure ClickState where
  prevPressed : Bool
  lastChange : Nat
  clickCount : Nat
  firstClickTime : Nat
  lastClickReleaseTime : Nat
deriving DecidableEq, Repr

/-- Initial decoder state (statics start false/0, globals at lines 122-127). -/
def initClickState : ClickState :=
  { prevPressed := false, lastChange := 0, clickCount := 0,
    firstClickTime := 0, lastClickReleaseTime := 0 }

/-- One poll of `handleButtonClicks` (main.cpp lines 1224-1279) at time
`now` with the polarity-resolved sample `pressed`, returning the new
decoder state and the gesture resolved by this poll (if any).  The edge
section runs first (counting releases, with the immediate triple path),
then the grouping-window timeout section. -/
def buttonStep (cs : ClickState) (now : Nat) (pressed : Bool) : ClickState × Gesture :=
  let (cs1, g1) :=
    if pressed ≠ cs.prevPressed ∧ now - cs.lastChange > DEBOUNCE_MS then
      if cs.prevPressed ∧ ¬pressed then
        let fct := if cs.clickCount = 0 then now else cs.firstClickTime
        let cc := cs.clickCount + 1
        let csr := { cs with lastChange := now, prevPressed := pressed,
                             firstClickTime := fct, clickCount := cc,
                             lastClickReleaseTime := now }
        if cc ≥ 3 ∧ now - fct ≤ MULTI_CLICK_WINDOW_MS then
          ({ csr with clickCount := 0 }, Gesture.triple)
        else
          (csr, Gesture.nothing)
      else
        ({ cs with lastChange := now, prevPressed := pressed }, Gesture.nothing)
    else
      (cs, Gesture.nothing)
  if cs1.clickCount > 0 ∧ now - cs1.lastClickReleaseTime > MULTI_CLICK_WINDOW_MS then
    let clicks := cs1.clickCount
    ({ cs1 with clickCount := 0 },
     if clicks ≥ 3 then Gesture.triple
     else if clicks = 2 then Gesture.double
     else Gesture.single)
  else
    (cs1, g1)

end Circadian

namespace Circadian

/-! ## Helper lemmas -/

theorem update_fields (s : SysState) (t : Int) :
    (updateSuppressionWindows s t).routines = s.routines ∧
    (updateSuppressionWindows s t).alarms = s.alarms ∧
    (updateSuppressionWindows s t).routineActive = s.routineActive ∧
    (updateSuppressionWindows s t).alarmActive = s.alarmActive ∧
    (updateSuppressionWindows s t).activeRoutineId = s.activeRoutineId ∧
    (updateSuppressionWindows s t).activeAlarmId = s.activeAlarmId ∧
    (updateSuppressionWindows s t).lastRoutineMinute = s.lastRoutineMinute ∧
    (updateSuppressionWindows s t).lastAlarmMinute = s.lastAlarmMinute ∧
    (updateSuppressionWindows s t).wasOffBeforeRoutine = s.wasOffBeforeRoutine ∧
    (updateSuppressionWindows s t).wasOffBeforeAlarm = s.wasOffBeforeAlarm ∧
    (updateSuppressionWindows s t).isOn = s.isOn ∧
    (updateSuppressionWindows s t).brightness = s.brightness ∧
    (updateSuppressionWindows s t).mode = s.mode ∧
    (updateSuppressionWindows s t).suppressedRoutine = s.suppressedRoutine ∧
    (updateSuppressionWindows s t).suppressedAlarm = s.suppressedAlarm := by
  unfold updateSuppressionWindows
  dsimp only
  split <;> split <;> simp

theorem update_routineSuppressed (s : SysState) (t : Int) :
    (updateSuppressionWindows s t).routineSuppressed =
      (s.routineSuppressed &&
        isWithinTimeRange s.suppressedRoutine.start_hour s.suppressedRoutine.start_minute
          s.suppressedRoutine.end_hour s.suppressedRoutine.end_minute t) := by
  unfold updateSuppressionWindows
  dsimp only
  split <;> split <;> simp_all [Bool.and_eq_true, Bool.not_eq_true']

theorem applyRoutineTick_fields (s : SysState) (r : Routine) (cm : Int) :
    (applyRoutineTick s r cm).alarmActive = s.alarmActive ∧
    (applyRoutineTick s r cm).activeAlarmId = s.activeAlarmId ∧
    (applyRoutineTick s r cm).lastAlarmMinute = s.lastAlarmMinute ∧
    (applyRoutineTick s r cm).wasOffBeforeAlarm = s.wasOffBeforeAlarm ∧
    (applyRoutineTick s r cm).routineSuppressed = s.routineSuppressed ∧
    (applyRoutineTick s r cm).alarmSuppressed = s.alarmSuppressed ∧
    (applyRoutineTick s r cm).routines = s.routines ∧
    (applyRoutineTick s r cm).alarms = s.alarms := by
  unfold applyRoutineTick
  dsimp only
  split <;> (try split) <;> simp

theorem applyAlarmTick_fields (s : SysState) (a : Alarm) (t cm : Int) :
    (applyAlarmTick s a t cm).routineActive = s.routineActive ∧
    (applyAlarmTick s a t cm).activeRoutineId = s.activeRoutineId ∧
    (applyAlarmTick s a t cm).lastRoutineMinute = s.lastRoutineMinute ∧
    (applyAlarmTick s a t cm).wasOffBeforeRoutine = s.wasOffBeforeRoutine ∧
    (applyAlarmTick s a t cm).routineSuppressed = s.routineSuppressed ∧
    (applyAlarmTick s a t cm).alarmSuppressed = s.alarmSuppressed ∧
    (applyAlarmTick s a t cm).routines = s.routines ∧
    (applyAlarmTick s a t cm).alarms = s.alarms := by
  unfold applyAlarmTick
  dsimp only
  split <;> (try split) <;> simp

theorem firstEnabledRoutine_cons (r : Routine) (rest : List Routine) (t : Int) :
    firstEnabledRoutine (r :: rest) t =
      if r.enabled && routineInRange r t then some r else firstEnabledRoutine rest t := by
  unfold firstEnabledRoutine
  by_cases hc : (r.enabled && routineInRange r t) = true
  · rw [List.find?_cons_of_pos (p := fun r => r.enabled && routineInRange r t) _ hc, if_pos hc]
  · rw [List.find?_cons_of_neg (p := fun r => r.enabled && routineInRange r t) _
      (by simpa using hc), if_neg hc]

theorem firstEnabledAlarm_cons (a : Alarm) (rest : List Alarm) (t : Int) :
    firstEnabledAlarm (a :: rest) t =
      if a.enabled && alarmInRange a t then some a else firstEnabledAlarm rest t := by
  unfold firstEnabledAlarm
  by_cases hc : (a.enabled && alarmInRange a t) = true
  · rw [List.find?_cons_of_pos (p := fun a => a.enabled && alarmInRange a t) _ hc, if_pos hc]
  · rw [List.find?_cons_of_neg (p := fun a => a.enabled && alarmInRange a t) _
      (by simpa using hc), if_neg hc]

theorem routineLoop_eq_none (s : SysState) (t cm : Int) :
    ∀ rs : List Routine, firstEnabledRoutine rs t = none →
      routineLoop s t cm rs = none
  | [], _ => rfl
  | r :: rest, h => by
    rw [firstEnabledRoutine_cons] at h
    by_cases hc : (r.enabled && routineInRange r t) = true
    · rw [if_pos hc] at h
      cases h
    · rw [if_neg hc] at h
      simp only [routineLoop, if_neg hc]
      exact routineLoop_eq_none s t cm rest h

theorem routineLoop_suppressed (s : SysState) (t cm : Int) (r : Routine) :
    ∀ rs : List Routine, firstEnabledRoutine rs t = some r →
      s.routineSuppressed = true → s.suppressedRoutine.id = r.id →
      routineLoop s t cm rs = some s
  | [], h, _, _ => by cases h
  | r' :: rest, h, hsup, hid => by
    rw [firstEnabledRoutine_cons] at h
    by_cases hc : (r'.enabled && routineInRange r' t) = true
    · rw [if_pos hc] at h
      cases h
      simp only [routineLoop, if_pos hc]
      rw [if_pos (by simp [hsup, hid])]
    · rw [if_neg hc] at h
      simp only [routineLoop, if_neg hc]
      exact routineLoop_suppressed s t cm r rest h hsup hid

theorem routineLoop_applies (s : SysState) (t cm : Int) (r : Routine) :
    ∀ rs : List Routine, firstEnabledRoutine rs t = some r →
      (s.routineSuppressed = false ∨ s.suppressedRoutine.id ≠ r.id) →
      routineLoop s t cm rs = some (applyRoutineTick s r cm)
  | [], h, _ => by cases h
  | r' :: rest, h, hns => by
    rw [firstEnabledRoutine_cons] at h
    by_cases hc : (r'.enabled && routineInRange r' t) = true
    · rw [if_pos hc] at h
      cases h
      simp only [routineLoop, if_pos hc]
      rw [if_neg (by rcases hns with hns | hns <;> simp [hns])]
    · rw [if_neg hc] at h
      simp only [routineLoop, if_neg hc]
      exact routineLoop_applies s t cm r rest h hns

theorem routineLoop_preserves (s : SysState) (t cm : Int) :
    ∀ rs : List Routine, ∀ s' : SysState, routineLoop s t cm rs = some s' →
      s'.alarmActive = s.alarmActive ∧
      s'.activeAlarmId = s.activeAlarmId ∧
      s'.lastAlarmMinute = s.lastAlarmMinute ∧
      s'.wasOffBeforeAlarm = s.wasOffBeforeAlarm ∧
      s'.routineSuppressed = s.routineSuppressed ∧
      s'.alarmSuppressed = s.alarmSuppressed ∧
      s'.routines = s.routines ∧
      s'.alarms = s.alarms
  | [], s', h => by cases h
  | r :: rest, s', h => by
    by_cases hc : (r.enabled && routineInRange r t) = true
    · simp only [routineLoop, if_pos hc] at h
      by_cases hs : (s.routineSuppressed && s.suppressedRoutine.id == r.id) = true
      · rw [if_pos hs] at h
        cases h
        simp
      · rw [if_neg hs] at h
        cases h
        exact applyRoutineTick_fields s r cm
    · simp only [routineLoop, if_neg hc] at h
      exact routineLoop_preserves s t cm rest s' h

theorem alarmLoop_eq_none (s : SysState) (t cm : Int) :
    ∀ as : List Alarm, firstEnabledAlarm as t = none →
      alarmLoop s t cm as = none
  | [], _ => rfl
  | a :: rest, h => by
    rw [firstEnabledAlarm_cons] at h
    by_cases hc : (a.enabled && alarmInRange a t) = true
    · rw [if_pos hc] at h
      cases h
    · rw [if_neg hc] at h
      simp only [alarmLoop, if_neg hc]
      exact alarmLoop_eq_none s t cm rest h

theorem alarmLoop_applies (s : SysState) (t cm : Int) (a : Alarm) :
    ∀ as : List Alarm, firstEnabledAlarm as t = some a →
      (s.alarmSuppressed = false ∨ s.suppressedAlarm.id ≠ a.id) →
      alarmLoop s t cm as = some (applyAlarmTick s a t cm)
  | [], h, _ => by cases h
  | a' :: rest, h, hns => by
    rw [firstEnabledAlarm_cons] at h
    by_cases hc : (a'.enabled && alarmInRange a' t) = true
    · rw [if_pos hc] at h
      cases h
      simp only [alarmLoop, if_pos hc]
      rw [if_neg (by rcases hns with hns | hns <;> simp [hns])]
    · rw [if_neg hc] at h
      simp only [alarmLoop, if_neg hc]
      exact alarmLoop_applies s t cm a rest h hns

theorem alarmLoop_preserves (s : SysState) (t cm : Int) :
    ∀ as : List Alarm, ∀ s' : SysState, alarmLoop s t cm as = some s' →
      s'.routineActive = s.routineActive ∧
      s'.activeRoutineId = s.activeRoutineId ∧
      s'.lastRoutineMinute = s.lastRoutineMinute ∧
      s'.wasOffBeforeRoutine = s.wasOffBeforeRoutine ∧
      s'.routineSuppressed = s.routineSuppressed ∧
      s'.alarmSuppressed = s.alarmSuppressed ∧
      s'.routines = s.routines ∧
      s'.alarms = s.alarms
  | [], s', h => by cases h
  | a :: rest, s', h => by
    by_cases hc : (a.enabled && alarmInRange a t) = true
    · simp only [alarmLoop, if_pos hc] at h
      by_cases hs : (s.alarmSuppressed && s.suppressedAlarm.id == a.id) = true
      · rw [if_pos hs] at h
        cases h
        simp
      · rw [if_neg hs] at h
        cases h
        exact applyAlarmTick_fields s a t cm
    · simp only [alarmLoop, if_neg hc] at h
      exact alarmLoop_preserves s t cm rest s' h

theorem checkSchedule_routineSuppressed (s : SysState) (h m : Int) :
    (checkSchedule s h m).routineSuppressed =
      (updateSuppressionWindows s (h * 60 + m)).routineSuppressed := by
  unfold checkSchedule
  dsimp only
  rcases hrl : routineLoop (updateSuppressionWindows s (h * 60 + m)) (h * 60 + m) m
      (updateSuppressionWindows s (h * 60 + m)).routines with _ | s'
  · rcases hal : alarmLoop (updateSuppressionWindows s (h * 60 + m)) (h * 60 + m) m
        (updateSuppressionWindows s (h * 60 + m)).alarms with _ | s''
    · simp only [hrl, hal]
      split
      · rfl
      · split
        · rfl
        · rfl
    · simp only [hrl, hal]
      split
      · rfl
      · exact (alarmLoop_preserves _ _ _ _ _ hal).2.2.2.2.1
  · simp only [hrl]
    exact (routineLoop_preserves _ _ _ _ _ hrl).2.2.2.2.1

/-! ## Claim theorems -/

/-- C1: On every schedule tick, when routine suppression is active (the
current time still lies in the suppressed snapshot's window) and the first
enabled routine whose window contains the current time carries the
suppressed id, the tick applies no routine at all — the state is exactly
what `updateSuppressionWindows` left, and suppression stays set; the
suppression flag is cleared by the tick exactly when the current time lies
outside the captured [start, end] window. -/
theorem tick_suppression_semantics (s : SysState) (h m : Int) (r : Routine) :
    (isWithinTimeRange s.suppressedRoutine.start_hour s.suppressedRoutine.start_minute
        s.suppressedRoutine.end_hour s.suppressedRoutine.end_minute (h * 60 + m) = true →
      (s.routineSuppressed = true →
        firstEnabledRoutine s.routines (h * 60 + m) = some r →
        s.suppressedRoutine.id = r.id →
        checkSchedule s h m = updateSuppressionWindows s (h * 60 + m)) ∧
      (s.routineSuppressed = true →
        (checkSchedule s h m).routineSuppressed = true)) ∧
    (isWithinTimeRange s.suppressedRoutine.start_hour s.suppressedRoutine.start_minute
        s.suppressedRoutine.end_hour s.suppressedRoutine.end_minute (h * 60 + m) = false →
      (checkSchedule s h m).routineSuppressed = false) := by
  have hupd := update_fields s (h * 60 + m)
  have hsupd := update_routineSuppressed s (h * 60 + m)
  constructor
  · intro hwin
    constructor
    · intro hsup hfind hid
      have hloop : routineLoop (updateSuppressionWindows s (h * 60 + m)) (h * 60 + m) m
          (updateSuppressionWindows s (h * 60 + m)).routines =
          some (updateSuppressionWindows s (h * 60 + m)) := by
        apply routineLoop_suppressed
        · rw [hupd.1]
          exact hfind
        · rw [hsupd, hsup, hwin]
          rfl
        · rw [hupd.2.2.2.2.2.2.2.2.2.2.2.2.2.1]
          exact hid
      unfold checkSchedule
      dsimp only
      simp only [hloop]
    · intro hsup
      rw [checkSchedule_routineSuppressed, hsupd, hsup, hwin]
      rfl
  · intro hwin
    rw [checkSchedule_routineSuppressed, hsupd, hwin]
    exact Bool.and_false _

/-- Concrete data for the C1 witness: a routine whose window 09:00-11:00 is
suppressed. -/
def c1Routine : Routine :=
  { id := 1, enabled := true, start_hour := 9, start_minute := 0,
    end_hour := 11, end_minute := 0, brightness := 5, mode := 0 }

/-- Concrete state for the C1 witness. -/
def c1State : SysState :=
  { initState with routines := [c1Routine],
                   routineSuppressed := true, suppressedRoutine := c1Routine }

theorem tick_suppression_semantics_witness :
    checkSchedule c1State 10 0 = updateSuppressionWindows c1State (10 * 60 + 0) ∧
    (checkSchedule c1State 10 0).routineSuppressed = true ∧
    (checkSchedule c1State 23 0).routineSuppressed = false := by
  have h1 := tick_suppression_semantics c1State 10 0 c1Routine
  have h2 := tick_suppression_semantics c1State 23 0 c1Routine
  exact ⟨(h1.1 (by decide)).1 (by decide) (by decide) (by decide),
         (h1.1 (by decide)).2 (by decide),
         h2.2 (by decide)⟩

/-- C2: when an alarm is marked active, no routine matches, and no enabled
alarm's [start, wake] window contains the current time, the tick locks the
lamp into `is_on = true, brightness = 15, mode = BOTH` — independently of
the lamp state beforehand — and clears all the alarm's active markers. -/
theorem alarm_end_locks_state (s : SysState) (h m : Int)
    (ha : s.alarmActive = true) (hr : s.routineActive = false)
    (hnoR : firstEnabledRoutine s.routines (h * 60 + m) = none)
    (hnoA : firstEnabledAlarm s.alarms (h * 60 + m) = none) :
    (checkSchedule s h m).isOn = true ∧
    (checkSchedule s h m).brightness = 15 ∧
    (checkSchedule s h m).mode = Mode.both ∧
    (checkSchedule s h m).alarmActive = false ∧
    (checkSchedule s h m).activeAlarmId = -1 ∧
    (checkSchedule s h m).lastAlarmMinute = -1 ∧
    (checkSchedule s h m).wasOffBeforeAlarm = false := by
  have hupd := update_fields s (h * 60 + m)
  have hnone1 : routineLoop (updateSuppressionWindows s (h * 60 + m)) (h * 60 + m) m
      (updateSuppressionWindows s (h * 60 + m)).routines = none := by
    apply routineLoop_eq_none
    rw [hupd.1]
    exact hnoR
  have hnone2 : alarmLoop (updateSuppressionWindows s (h * 60 + m)) (h * 60 + m) m
      (updateSuppressionWindows s (h * 60 + m)).alarms = none := by
    apply alarmLoop_eq_none
    rw [hupd.2.1]
    exact hnoA
  have hra : (updateSuppressionWindows s (h * 60 + m)).routineActive = false := by
    rw [hupd.2.2.1]
    exact hr
  have haa : (updateSuppressionWindows s (h * 60 + m)).alarmActive = true := by
    rw [hupd.2.2.2.1]
    exact ha
  unfold checkSchedule
  dsimp only
  simp only [hnone1, hnone2, hra, haa]
  simp

/-- Concrete state for the C2 witness: alarm marked active while the store
no longer holds any matching enabled alarm, lamp dim and off beforehand. -/
def c2State : SysState :=
  { initState with alarmActive := true, activeAlarmId := 7,
                   brightness := 3, isOn := false, mode := Mode.warm }

theorem alarm_end_locks_state_witness :
    (checkSchedule c2State 12 0).isOn = true ∧
    (checkSchedule c2State 12 0).brightness = 15 ∧
    (checkSchedule c2State 12 0).mode = Mode.both ∧
    (checkSchedule c2State 12 0).alarmActive = false := by
  have h1 := alarm_end_locks_state c2State 12 0 (by decide) (by decide) (by decide) (by decide)
  exact ⟨h1.1, h1.2.1, h1.2.2.1, h1.2.2.2.1⟩

/-- C4: when a routine is marked active and no enabled routine's window
contains the current time, the tick clears all the routine's active
markers and leaves `is_on`, `brightness` and `mode` exactly as the routine
left them: the pre-automation snapshot is not restored. -/
theorem routine_end_frame (s : SysState) (h m : Int)
    (hr : s.routineActive = true)
    (hnoR : firstEnabledRoutine s.routines (h * 60 + m) = none) :
    (checkSchedule s h m).routineActive = false ∧
    (checkSchedule s h m).activeRoutineId = -1 ∧
    (checkSchedule s h m).lastRoutineMinute = -1 ∧
    (checkSchedule s h m).wasOffBeforeRoutine = false ∧
    (checkSchedule s h m).isOn = s.isOn ∧
    (checkSchedule s h m).brightness = s.brightness ∧
    (checkSchedule s h m).mode = s.mode := by
  have hupd := update_fields s (h * 60 + m)
  have hnone1 : routineLoop (updateSuppressionWindows s (h * 60 + m)) (h * 60 + m) m
      (updateSuppressionWindows s (h * 60 + m)).routines = none := by
    apply routineLoop_eq_none
    rw [hupd.1]
    exact hnoR
  have hra : (updateSuppressionWindows s (h * 60 + m)).routineActive = true := by
    rw [hupd.2.2.1]
    exact hr
  unfold checkSchedule
  dsimp only
  simp [hnone1, hra, hupd.2.2.2.2.2.2.2.2.2.2.1, hupd.2.2.2.2.2.2.2.2.2.2.2.1,
        hupd.2.2.2.2.2.2.2.2.2.2.2.2.1]

/-- Concrete state for the C4 witness: routine 3 marked active with the
lamp in the state the routine forced (brightness 5, warm, on), while the
store holds only a disabled routine. -/
def c4State : SysState :=
  { initState with
      routines := [{ id := 3, enabled := false, start_hour := 9, start_minute := 0,
                     end_hour := 11, end_minute := 0, brightness := 5, mode := 0 }],
      routineActive := true, activeRoutineId := 3, lastRoutineMinute := 59,
      wasOffBeforeRoutine := true, brightness := 5, mode := Mode.warm, isOn := true }

theorem routine_end_frame_witness :
    (checkSchedule c4State 10 0).routineActive = false ∧
    (checkSchedule c4State 10 0).activeRoutineId = -1 ∧
    (checkSchedule c4State 10 0).brightness = 5 ∧
    (checkSchedule c4State 10 0).mode = Mode.warm ∧
    (checkSchedule c4State 10 0).isOn = true := by
  have h1 := routine_end_frame c4State 10 0 (by decide) (by decide)
  exact ⟨h1.1, h1.2.1, h1.2.2.2.2.2.1, h1.2.2.2.2.2.2, h1.2.2.2.2.1⟩

theorem update_alarmSuppressed (s : SysState) (t : Int) :
    (updateSuppressionWindows s t).alarmSuppressed =
      (s.alarmSuppressed &&
        isWithinTimeRange s.suppressedAlarm.start_hour s.suppressedAlarm.start_minute
          s.suppressedAlarm.wake_hour s.suppressedAlarm.wake_minute t) := by
  unfold updateSuppressionWindows
  dsimp only
  split <;> split <;> simp_all [Bool.and_eq_true, Bool.not_eq_true']

theorem alarmBrightness_mono (st d t1 t2 : Int) (hle : t1 ≤ t2) :
    alarmBrightness st d t1 ≤ alarmBrightness st d t2 := by
  unfold alarmBrightness
  dsimp only
  by_cases h1 : t1 - st ≤ 0
  · rw [if_pos h1]
    split
    · exact le_refl 0
    · split
      · norm_num
      · exact Int.ofNat_nonneg _
  · rw [if_neg h1]
    have h2 : ¬(t2 - st ≤ 0) := by omega
    rw [if_neg h2]
    by_cases hd1 : d ≤ t1 - st
    · rw [if_pos hd1, if_pos (by omega)]
    · rw [if_neg hd1]
      have hdpos : 0 < d := by omega
      by_cases hd2 : d ≤ t2 - st
      · rw [if_pos hd2]
        have hle15 : 15 * (t1 - st).toNat / d.toNat ≤ 15 := by
          have h1n : (t1 - st).toNat ≤ d.toNat := by omega
          calc 15 * (t1 - st).toNat / d.toNat
              ≤ 15 * d.toNat / d.toNat := Nat.div_le_div_right (by omega)
            _ = 15 := Nat.mul_div_cancel 15 (by omega)
        have := Int.ofNat_le.mpr hle15
        simpa using this
      · rw [if_neg hd2]
        have : 15 * (t1 - st).toNat / d.toNat ≤ 15 * (t2 - st).toNat / d.toNat :=
          Nat.div_le_div_right (by omega)
        exact Int.ofNat_le.mpr this

/-- C5 (amended): on a tick where no routine matches, none is active, and
the first enabled alarm whose [start, wake] window contains the current
time is unsuppressed with an update due, the tick forces
`is_on = true, mode = BOTH` and sets brightness to the truncated ramp
`⌊clamp((current − start)/duration, 0, 1) · 15⌋` (the C `(int)` cast
truncates — it does not round to nearest); that ramp is monotonically
non-decreasing in the current time. -/
theorem alarm_ramp_formula (s : SysState) (h m : Int) (a : Alarm)
    (hr : s.routineActive = false)
    (hnoR : firstEnabledRoutine s.routines (h * 60 + m) = none)
    (hfa : firstEnabledAlarm s.alarms (h * 60 + m) = some a)
    (hns : s.alarmSuppressed = false ∨ s.suppressedAlarm.id ≠ a.id)
    (hdue : (!s.alarmActive || !(s.activeAlarmId == a.id) || !(s.lastAlarmMinute == m)) = true) :
    ((checkSchedule s h m).isOn = true ∧
     (checkSchedule s h m).mode = Mode.both ∧
     (checkSchedule s h m).brightness =
       alarmBrightness (a.start_hour * 60 + a.start_minute) a.duration_minutes (h * 60 + m)) ∧
    (∀ t1 t2 : Int, t1 ≤ t2 →
       alarmBrightness (a.start_hour * 60 + a.start_minute) a.duration_minutes t1 ≤
       alarmBrightness (a.start_hour * 60 + a.start_minute) a.duration_minutes t2) := by
  have hupd := update_fields s (h * 60 + m)
  have hnone1 : routineLoop (updateSuppressionWindows s (h * 60 + m)) (h * 60 + m) m
      (updateSuppressionWindows s (h * 60 + m)).routines = none := by
    apply routineLoop_eq_none
    rw [hupd.1]
    exact hnoR
  have hra : (updateSuppressionWindows s (h * 60 + m)).routineActive = false := by
    rw [hupd.2.2.1]
    exact hr
  have hns0 : (updateSuppressionWindows s (h * 60 + m)).alarmSuppressed = false ∨
      (updateSuppressionWindows s (h * 60 + m)).suppressedAlarm.id ≠ a.id := by
    rcases hns with hns | hns
    · left
      rw [update_alarmSuppressed, hns]
      rfl
    · right
      rw [hupd.2.2.2.2.2.2.2.2.2.2.2.2.2.2]
      exact hns
  have hloop : alarmLoop (updateSuppressionWindows s (h * 60 + m)) (h * 60 + m) m
      (updateSuppressionWindows s (h * 60 + m)).alarms =
      some (applyAlarmTick (updateSuppressionWindows s (h * 60 + m)) a (h * 60 + m) m) := by
    apply alarmLoop_applies
    · rw [hupd.2.1]
      exact hfa
    · exact hns0
  have hdue0 : (!(updateSuppressionWindows s (h * 60 + m)).alarmActive ||
      !((updateSuppressionWindows s (h * 60 + m)).activeAlarmId == a.id) ||
      !((updateSuppressionWindows s (h * 60 + m)).lastAlarmMinute == m)) = true := by
    rw [hupd.2.2.2.1, hupd.2.2.2.2.2.1, hupd.2.2.2.2.2.2.2.1]
    exact hdue
  constructor
  · unfold checkSchedule
    dsimp only
    simp only [hnone1, hra, Bool.false_eq_true, if_false, hloop]
    unfold applyAlarmTick
    dsimp only
    simp only [hdue0, if_true]
    refine ⟨?_, ?_, ?_⟩ <;> simp
  · intro t1 t2 hle
    exact alarmBrightness_mono _ _ _ _ hle

/-- The ramp brightness exactly as claim C5 words it:
`round(clamp((current − start)/duration, 0, 1) * 15)` with round-to-nearest
(halves away from zero), i.e. `⌊(30·elapsed + duration) / (2·duration)⌋`
on the unsaturated branch — written from the claim for comparison against
the code's truncating `alarmBrightness`. -/
def claimRoundBrightness (startTime duration currentTime : Int) : Int :=
  let elapsed := currentTime - startTime
  if elapsed ≤ 0 then 0
  else if duration ≤ elapsed then 15
  else Int.ofNat ((30 * elapsed.toNat + duration.toNat) / (2 * duration.toNat))

/-- Concrete state for the C5 counterexample: one enabled alarm from 06:00,
duration 2 minutes. -/
def c5State : SysState :=
  { initState with
      alarms := [{ id := 1, enabled := true, wake_hour := 6, wake_minute := 30,
                   start_hour := 6, start_minute := 0, duration_minutes := 2 }] }

theorem alarm_ramp_counterexample :
    (checkSchedule c5State 6 1).brightness = 7 ∧
    claimRoundBrightness (6 * 60) 2 (6 * 60 + 1) = 8 := by
  constructor
  · rfl
  · rfl

theorem alarm_ramp_formula_witness :
    (checkSchedule c5State 6 1).isOn = true ∧
    (checkSchedule c5State 6 1).mode = Mode.both ∧
    (checkSchedule c5State 6 1).brightness = alarmBrightness (6 * 60 + 0) 2 (6 * 60 + 1) ∧
    alarmBrightness (6 * 60 + 0) 2 (6 * 60 + 1) ≤ alarmBrightness (6 * 60 + 0) 2 (6 * 60 + 2) := by
  have h1 := alarm_ramp_formula c5State 6 1
      { id := 1, enabled := true, wake_hour := 6, wake_minute := 30,
        start_hour := 6, start_minute := 0, duration_minutes := 2 }
      (by decide) (by decide) (by decide) (Or.inl (by decide)) (by decide)
  exact ⟨h1.1.1, h1.1.2.1, h1.1.2.2, h1.2 (6 * 60 + 1) (6 * 60 + 2) (by decide)⟩

/-- C10: the output mapping is a pure total function of
`(is_on, brightness, mode)`: off always yields `(15, 15)`; on yields, with
`inverted = 15 − max 1 brightness`, `(inverted, 15)` for WARM,
`(15, inverted)` for WHITE and `(inverted, inverted)` for BOTH. -/
theorem output_mapping (o : Bool) (b : Int) (m : Mode)
    (h0 : 0 ≤ b) (h15 : b ≤ 15) :
    (o = false → computeChannels o b m = (15, 15)) ∧
    (o = true → m = Mode.warm → computeChannels o b m = (15 - max 1 b, 15)) ∧
    (o = true → m = Mode.white → computeChannels o b m = (15, 15 - max 1 b)) ∧
    (o = true → m = Mode.both → computeChannels o b m = (15 - max 1 b, 15 - max 1 b)) := by
  refine ⟨?_, ?_, ?_, ?_⟩ <;> rintro rfl <;> try rintro rfl
  all_goals simp [computeChannels]

theorem output_mapping_witness :
    computeChannels false 7 Mode.warm = (15, 15) ∧
    computeChannels true 7 Mode.warm = (8, 15) ∧
    computeChannels true 0 Mode.white = (15, 14) ∧
    computeChannels true 15 Mode.both = (0, 0) := by
  refine ⟨(output_mapping false 7 Mode.warm (by decide) (by decide)).1 rfl, ?_, ?_, ?_⟩
  · have h := (output_mapping true 7 Mode.warm (by decide) (by decide)).2.1 rfl rfl
    rw [h]
    decide
  · have h := (output_mapping true 0 Mode.white (by decide) (by decide)).2.2.1 rfl rfl
    rw [h]
    decide
  · have h := (output_mapping true 15 Mode.both (by decide) (by decide)).2.2.2 rfl rfl
    rw [h]
    decide

theorem replaceRoutineById_none (d : Routine) :
    ∀ rs : List Routine, (rs.any fun r => r.id == d.id) = false →
      replaceRoutineById rs d = none
  | [], _ => rfl
  | r :: rest, h => by
    simp only [List.any_cons, Bool.or_eq_false_iff] at h
    unfold replaceRoutineById
    rw [h.1, replaceRoutineById_none d rest h.2]
    simp

theorem replaceRoutineById_decomp (d : Routine) :
    ∀ rs : List Routine, (rs.any fun r => r.id == d.id) = true →
      ∃ rs₁ old rs₂, rs = rs₁ ++ old :: rs₂ ∧ old.id = d.id ∧
        (∀ r ∈ rs₁, r.id ≠ d.id) ∧
        replaceRoutineById rs d = some (rs₁ ++ d :: rs₂)
  | [], h => by simp at h
  | r :: rest, h => by
    by_cases hr : (r.id == d.id) = true
    · refine ⟨[], r, rest, by simp, by simpa using hr, by simp, ?_⟩
      unfold replaceRoutineById
      rw [hr]
      simp
    · have hrest : (rest.any fun r => r.id == d.id) = true := by
        simp only [List.any_cons] at h
        rcases Bool.or_eq_true_iff.mp h with h | h
        · exact absurd h hr
        · exact h
      obtain ⟨rs₁, old, rs₂, hsplit, hid, hpre, hrep⟩ :=
        replaceRoutineById_decomp d rest hrest
      refine ⟨r :: rs₁, old, rs₂, by simp [hsplit], hid, ?_, ?_⟩
      · intro x hx
        rcases List.mem_cons.mp hx with rfl | hx
        · simpa using hr
        · exact hpre x hx
      · unfold replaceRoutineById
        rw [if_neg hr, hrep]
        rfl

/-- C9: routine upsert with valid fields: an existing id is overwritten in
place (same position, count unchanged, other entries untouched); a new id
is appended while fewer than `MAX_ROUTINES` (10) routines are stored;
otherwise the upsert fails with "Storage full" and writes nothing. -/
theorem routine_upsert_semantics (rs : List Routine) (d : Routine)
    (hv : routineValid d = true) :
    ((rs.any fun r => r.id == d.id) = true →
       ∃ rs₁ old rs₂, rs = rs₁ ++ old :: rs₂ ∧ old.id = d.id ∧
         (∀ r ∈ rs₁, r.id ≠ d.id) ∧
         upsertRoutine rs d = Except.ok (rs₁ ++ d :: rs₂) ∧
         (rs₁ ++ d :: rs₂).length = rs.length) ∧
    ((rs.any fun r => r.id == d.id) = false → rs.length < MAX_ROUTINES →
       upsertRoutine rs d = Except.ok (rs ++ [d])) ∧
    ((rs.any fun r => r.id == d.id) = false → ¬rs.length < MAX_ROUTINES →
       upsertRoutine rs d = Except.error "Storage full") := by
  refine ⟨?_, ?_, ?_⟩
  · intro h
    obtain ⟨rs₁, old, rs₂, hsplit, hid, hpre, hrep⟩ := replaceRoutineById_decomp d rs h
    refine ⟨rs₁, old, rs₂, hsplit, hid, hpre, ?_, by simp [hsplit]⟩
    unfold upsertRoutine
    rw [hrep]
  · intro h hlt
    unfold upsertRoutine
    rw [replaceRoutineById_none d rs h, if_pos hlt]
  · intro h hge
    unfold upsertRoutine
    rw [replaceRoutineById_none d rs h, if_neg hge]

/-- A store of ten distinct routines for the C9 witness. -/
def c9Store : List Routine :=
  (List.range MAX_ROUTINES).map fun i =>
    { id := (i : Int), enabled := true, start_hour := 9, start_minute := 0,
      end_hour := 10, end_minute := 0, brightness := 5, mode := 0 }

/-- An eleventh distinct routine for the C9 witness. -/
def c9New : Routine :=
  { id := 100, enabled := true, start_hour := 12, start_minute := 0,
    end_hour := 13, end_minute := 0, brightness := 7, mode := 2 }

theorem routine_upsert_semantics_witness :
    upsertRoutine c9Store c9New = Except.error "Storage full" ∧
    upsertRoutine [] c9New = Except.ok [c9New] := by
  constructor
  · exact (routine_upsert_semantics c9Store c9New (by decide)).2.2 (by decide) (by decide)
  · exact (routine_upsert_semantics [] c9New (by decide)).2.1 (by decide) (by decide)

theorem wsBrightnessStep_isOn (s : SysState) (mb : Option Int) :
    (wsBrightnessStep s mb).isOn = s.isOn := by
  unfold wsBrightnessStep
  cases mb <;> dsimp only <;> (try split) <;> (try split) <;> simp

theorem wsBrightnessStep_mode (s : SysState) (mb : Option Int) :
    (wsBrightnessStep s mb).mode = s.mode := by
  unfold wsBrightnessStep
  cases mb <;> dsimp only <;> (try split) <;> (try split) <;> simp

theorem wsModeStep_brightness (s : SysState) (mm : Option Int) :
    (wsModeStep s mm).brightness = s.brightness := by
  unfold wsModeStep
  cases mm <;> dsimp only <;> (try split) <;> simp

theorem wsModeStep_isOn (s : SysState) (mm : Option Int) :
    (wsModeStep s mm).isOn = s.isOn := by
  unfold wsModeStep
  cases mm <;> dsimp only <;> (try split) <;> simp

theorem wsOnStep_brightness (s : SysState) (mo : Option Bool) :
    (wsOnStep s mo).brightness = s.brightness := by
  unfold wsOnStep
  cases mo <;> dsimp only <;> (try split) <;> simp

theorem wsOnStep_mode (s : SysState) (mo : Option Bool) :
    (wsOnStep s mo).mode = s.mode := by
  unfold wsOnStep
  cases mo <;> dsimp only <;> (try split) <;> simp

theorem wsOnStep_isOn (s : SysState) (o : Bool) :
    (wsOnStep s (some o)).isOn = o := by
  unfold wsOnStep
  dsimp only
  split
  · rfl
  · rename_i hne
    rw [not_not] at hne
    rw [hne]

theorem wsBrightnessStep_value (s : SysState) (b : Int) :
    (wsBrightnessStep s (some b)).brightness =
      if s.isOn && decide (constrainI b 0 15 < 1) then 1 else constrainI b 0 15 := by
  unfold wsBrightnessStep
  dsimp only
  split <;> split <;> simp_all

theorem wsModeStep_value (s : SysState) (m : Int) :
    (wsModeStep s (some m)).mode = intToMode (constrainI m 0 2) := by
  unfold wsModeStep
  dsimp only
  split
  · rfl
  · rename_i hne
    rw [not_not] at hne
    rw [hne]

theorem applyStateSet_brightness (s : SysState) (msg : StateSetMsg) :
    (applyStateSet s msg).brightness =
      match msg.brightness with
      | some b => if s.isOn && decide (constrainI b 0 15 < 1) then 1 else constrainI b 0 15
      | none => s.brightness := by
  unfold applyStateSet
  rw [wsOnStep_brightness, wsModeStep_brightness]
  cases msg.brightness with
  | none => rfl
  | some b => exact wsBrightnessStep_value s b

theorem applyStateSet_mode (s : SysState) (msg : StateSetMsg) :
    (applyStateSet s msg).mode =
      match msg.mode with
      | some m => intToMode (constrainI m 0 2)
      | none => s.mode := by
  unfold applyStateSet
  rw [wsOnStep_mode]
  cases msg.mode with
  | none => exact wsBrightnessStep_mode s msg.brightness
  | some m => exact wsModeStep_value _ m

theorem applyStateSet_isOn (s : SysState) (msg : StateSetMsg) :
    (applyStateSet s msg).isOn =
      match msg.onVal with
      | some o => o
      | none => s.isOn := by
  unfold applyStateSet
  cases msg.onVal with
  | none =>
    unfold wsOnStep
    rw [wsModeStep_isOn, wsBrightnessStep_isOn]
  | some o => exact wsOnStep_isOn _ o

theorem constrainI_mem (x : Int) : 0 ≤ constrainI x 0 15 ∧ constrainI x 0 15 ≤ 15 := by
  unfold constrainI
  split <;> (try split) <;> omega

/-- C8 (amended): a direct state-set message is applied with no
manual-lock check — the resulting lamp fields depend only on the message
and the prior lamp fields; a present brightness is clamped to [0,15]; the
≥ 1 floor is enforced only when the lamp is on at the moment the
brightness field is processed (the `on` field is applied afterwards), so
with the lamp previously on a present brightness ends ≥ 1, while with the
lamp previously off the clamped value is stored as-is even if the same
message also sets on = true. -/
theorem stateset_semantics (s : SysState) (msg : StateSetMsg) (b mv : Int) (o : Bool) :
    (msg.brightness = some b →
       (0 ≤ (applyStateSet s msg).brightness ∧ (applyStateSet s msg).brightness ≤ 15) ∧
       (s.isOn = false → (applyStateSet s msg).brightness = constrainI b 0 15) ∧
       (s.isOn = true → 1 ≤ (applyStateSet s msg).brightness)) ∧
    (msg.mode = some mv → (applyStateSet s msg).mode = intToMode (constrainI mv 0 2)) ∧
    (msg.onVal = some o → (applyStateSet s msg).isOn = o) ∧
    (∀ s₂ : SysState, s₂.brightness = s.brightness → s₂.isOn = s.isOn → s₂.mode = s.mode →
       (applyStateSet s₂ msg).brightness = (applyStateSet s msg).brightness ∧
       (applyStateSet s₂ msg).isOn = (applyStateSet s msg).isOn ∧
       (applyStateSet s₂ msg).mode = (applyStateSet s msg).mode) := by
  refine ⟨?_, ?_, ?_, ?_⟩
  · intro hb
    rw [applyStateSet_brightness, hb]
    dsimp only
    have hc := constrainI_mem b
    refine ⟨?_, ?_, ?_⟩
    · constructor <;> (split <;> omega)
    · intro hon
      rw [hon]
      simp
    · intro hon
      rw [hon]
      by_cases hlt : constrainI b 0 15 < 1 <;> simp [hlt] <;> omega
  · intro hm
    rw [applyStateSet_mode, hm]
  · intro ho
    rw [applyStateSet_isOn, ho]
  · intro s₂ hb hon hm
    refine ⟨?_, ?_, ?_⟩
    · rw [applyStateSet_brightness, applyStateSet_brightness]
      cases msg.brightness <;> dsimp only
      · exact hb
      · rw [hon]
    · rw [applyStateSet_isOn, applyStateSet_isOn]
      cases msg.onVal
      · exact hon
      · rfl
    · rw [applyStateSet_mode, applyStateSet_mode]
      cases msg.mode
      · exact hm
      · rfl

/-- Concrete state for the C8 counterexample: lamp off, stored brightness 0
(the global initial state with `isOn := false`). -/
def c8State : SysState := { initState with isOn := false }

/-- The C8 counterexample message: one message setting both `on := true`
and `brightness := 0` while the lamp is off. -/
def c8Msg : StateSetMsg := { brightness := some 0, mode := none, onVal := some true }

theorem stateset_floor_counterexample :
    (applyStateSet c8State c8Msg).isOn = true ∧
    (applyStateSet c8State c8Msg).brightness = 0 := by
  constructor
  · rfl
  · rfl

theorem stateset_semantics_witness :
    1 ≤ (applyStateSet initState { brightness := some 0, mode := some 1, onVal := some false }).brightness ∧
    (applyStateSet initState { brightness := some 0, mode := some 1, onVal := some false }).mode =
      intToMode (constrainI 1 0 2) ∧
    (applyStateSet initState { brightness := some 0, mode := some 1, onVal := some false }).isOn = false := by
  have h := stateset_semantics initState
      { brightness := some 0, mode := some 1, onVal := some false } 0 1 false
  exact ⟨(h.1 rfl).2.2 rfl, h.2.1 rfl, h.2.2.1 rfl⟩

theorem handleTripleClick_clears (s : SysState) :
    (handleTripleClick s).routineActive = false ∧
    (handleTripleClick s).alarmActive = false ∧
    (handleTripleClick s).sunSyncActive = false := by
  unfold handleTripleClick
  dsimp only
  repeat' split
  all_goals simp_all

/-- C7: while any of routine, alarm or sun-sync is active, a resolved
single click, a resolved double click and any rotary delta leave the whole
state unchanged and trigger no output recomputation, while the triple-click
override path still executes (output recomputed, active automations
cleared); with no automation active a single click toggles `is_on`. -/
theorem manual_lock_semantics (s : SysState) (d : Int) :
    (isManualControlLocked s = true →
       applyGestureO s Gesture.single = (s, false) ∧
       applyGestureO s Gesture.double = (s, false) ∧
       applyRotary s d = (s, false) ∧
       (applyGestureO s Gesture.triple).2 = true ∧
       (applyGestureO s Gesture.triple).1.routineActive = false ∧
       (applyGestureO s Gesture.triple).1.alarmActive = false) ∧
    (isManualControlLocked s = false →
       (applyGestureO s Gesture.single).1.isOn = (!s.isOn) ∧
       (applyGestureO s Gesture.single).2 = true) := by
  constructor
  · intro hlock
    refine ⟨?_, ?_, ?_, rfl, ?_, ?_⟩
    · unfold applyGestureO
      dsimp only
      rw [if_pos hlock]
    · unfold applyGestureO
      dsimp only
      rw [if_pos hlock]
    · unfold applyRotary
      by_cases hd : d = 0
      · rw [if_pos hd]
      · rw [if_neg hd, if_pos hlock]
    · exact (handleTripleClick_clears s).1
    · exact (handleTripleClick_clears s).2.1
  · intro hlock
    constructor
    · unfold applyGestureO
      dsimp only
      rw [if_neg (by simp [hlock])]
    · unfold applyGestureO
      dsimp only
      rw [if_neg (by simp [hlock])]

/-- Concrete locked state for the C7 witness: a routine is active. -/
def c7Locked : SysState :=
  { initState with routineActive := true, activeRoutineId := 3,
                   brightness := 9, mode := Mode.white, isOn := true }

theorem manual_lock_semantics_witness :
    applyGestureO c7Locked Gesture.single = (c7Locked, false) ∧
    applyGestureO c7Locked Gesture.double = (c7Locked, false) ∧
    applyRotary c7Locked 1 = (c7Locked, false) ∧
    (applyGestureO c7Locked Gesture.triple).2 = true ∧
    (applyGestureO initState Gesture.single).1.isOn = (!initState.isOn) := by
  have hl := manual_lock_semantics c7Locked 1
  have hu := manual_lock_semantics initState 1
  exact ⟨(hl.1 (by decide)).1, (hl.1 (by decide)).2.1, (hl.1 (by decide)).2.2.1,
         (hl.1 (by decide)).2.2.2.1, (hu.2 (by decide)).1⟩

/-- Fold of `buttonStep` over a list of timed polls `(millis, pressed)`,
collecting the gesture resolved at each poll. -/
def runButtons (cs : ClickState) : List (Nat × Bool) → ClickState × List Gesture
  | [] => (cs, [])
  | (t, p) :: rest =>
    let step := buttonStep cs t p
    let tail := runButtons step.1 rest
    (tail.1, step.2 :: tail.2)

/-- C6 counterexample polls: press/release pairs giving accepted releases at
200 ms and 750 ms (same group: 750 − 200 ≤ 600), then an idle poll at
900 ms — more than 600 ms after the FIRST click of the group. -/
def c6Trace : List (Nat × Bool) :=
  [(100, true), (200, false), (700, true), (750, false), (900, false)]

theorem click_window_counterexample :
    (runButtons initClickState c6Trace).2 =
      [Gesture.nothing, Gesture.nothing, Gesture.nothing, Gesture.nothing, Gesture.nothing] ∧
    (runButtons initClickState c6Trace).1.clickCount = 2 ∧
    (runButtons initClickState c6Trace).1.firstClickTime = 200 ∧
    900 - (runButtons initClickState c6Trace).1.firstClickTime > MULTI_CLICK_WINDOW_MS := by
  refine ⟨?_, ?_, ?_, ?_⟩ <;> decide

/-- C6 (amended): each accepted (debounced) release increments the pending
count and re-anchors the 600 ms grouping window at that — the most recent —
release (`lastClickReleaseTime`), not at the first click; a third click
within 600 ms of the first click resolves immediately as a triple; when a
poll arrives with no edge, the pending 1 or 2 clicks resolve as
single/double only once more than 600 ms have passed since the LAST
release, and the count resets to 0. -/
theorem click_grouping_semantics (cs : ClickState) (now : Nat) (p : Bool) :
    (cs.prevPressed = true → p = false → now - cs.lastChange > DEBOUNCE_MS →
      ((cs.clickCount + 1 ≥ 3 ∧
          now - (if cs.clickCount = 0 then now else cs.firstClickTime) ≤ MULTI_CLICK_WINDOW_MS) →
         buttonStep cs now p =
           ({ cs with lastChange := now, prevPressed := false,
                      firstClickTime := if cs.clickCount = 0 then now else cs.firstClickTime,
                      clickCount := 0, lastClickReleaseTime := now }, Gesture.triple)) ∧
      (¬(cs.clickCount + 1 ≥ 3 ∧
          now - (if cs.clickCount = 0 then now else cs.firstClickTime) ≤ MULTI_CLICK_WINDOW_MS) →
         buttonStep cs now p =
           ({ cs with lastChange := now, prevPressed := false,
                      firstClickTime := if cs.clickCount = 0 then now else cs.firstClickTime,
                      clickCount := cs.clickCount + 1, lastClickReleaseTime := now },
            Gesture.nothing))) ∧
    (p = cs.prevPressed →
      (cs.clickCount > 0 → now - cs.lastClickReleaseTime > MULTI_CLICK_WINDOW_MS →
         buttonStep cs now p =
           ({ cs with clickCount := 0 },
            if cs.clickCount ≥ 3 then Gesture.triple
            else if cs.clickCount = 2 then Gesture.double else Gesture.single)) ∧
      (¬(cs.clickCount > 0 ∧ now - cs.lastClickReleaseTime > MULTI_CLICK_WINDOW_MS) →
         buttonStep cs now p = (cs, Gesture.nothing))) := by
  constructor
  · intro hp hpr hdb
    have hedge : (p ≠ cs.prevPressed ∧ now - cs.lastChange > DEBOUNCE_MS) := by
      rw [hp, hpr]
      exact ⟨by simp, hdb⟩
    have hrel : (cs.prevPressed = true ∧ ¬p = true) := by
      rw [hp, hpr]
      exact ⟨rfl, by simp⟩
    constructor
    · intro htrip
      unfold buttonStep
      rw [if_pos hedge, if_pos hrel, if_pos htrip]
      dsimp only
      rw [if_neg (by simp)]
      rw [hpr]
    · intro htrip
      unfold buttonStep
      rw [if_pos hedge, if_pos hrel, if_neg htrip]
      dsimp only
      rw [if_neg (by simp)]
      rw [hpr]
  · intro hsame
    have hnoedge : ¬(p ≠ cs.prevPressed ∧ now - cs.lastChange > DEBOUNCE_MS) := by
      rw [hsame]
      simp
    constructor
    · intro hcnt htime
      unfold buttonStep
      rw [if_neg hnoedge]
      dsimp only
      rw [if_pos ⟨hcnt, htime⟩]
    · intro hno
      unfold buttonStep
      rw [if_neg hnoedge]
      dsimp only
      rw [if_neg hno]

/-- Decoder state for the C6 witness: one pending click released at 150 ms,
button released. -/
def c6Pending : ClickState :=
  { prevPressed := true, lastChange := 100, clickCount := 1,
    firstClickTime := 150, lastClickReleaseTime := 150 }

/-- Decoder state for the C6 witness timeout clause: two pending clicks,
last released at 200 ms. -/
def c6TwoClicks : ClickState :=
  { prevPressed := false, lastChange := 200, clickCount := 2,
    firstClickTime := 150, lastClickReleaseTime := 200 }

theorem click_grouping_semantics_witness :
    buttonStep c6Pending 200 false =
      ({ c6Pending with lastChange := 200, prevPressed := false,
                        firstClickTime := 150, clickCount := 2,
                        lastClickReleaseTime := 200 }, Gesture.nothing) ∧
    buttonStep c6TwoClicks 900 false = ({ c6TwoClicks with clickCount := 0 }, Gesture.double) := by
  constructor
  · have h := ((click_grouping_semantics c6Pending 200 false).1 (by decide) rfl
      (by decide)).2 (by decide)
    simpa using h
  · have h := ((click_grouping_semantics c6TwoClicks 900 false).2 (by decide)).1
      (by decide) (by decide)
    simpa using h

theorem routineLoop_isSome (s : SysState) (t cm : Int) (r : Routine) :
    ∀ rs : List Routine, firstEnabledRoutine rs t = some r →
      ∃ s' : SysState, routineLoop s t cm rs = some s'
  | [], h => by cases h
  | r' :: rest, h => by
    rw [firstEnabledRoutine_cons] at h
    by_cases hc : (r'.enabled && routineInRange r' t) = true
    · by_cases hs : (s.routineSuppressed && s.suppressedRoutine.id == r'.id) = true
      · exact ⟨s, by simp only [routineLoop, if_pos hc, if_pos hs]⟩
      · exact ⟨applyRoutineTick s r' cm, by simp only [routineLoop, if_pos hc, if_neg hs]⟩
    · rw [if_neg hc] at h
      obtain ⟨s', hs'⟩ := routineLoop_isSome s t cm r rest h
      exact ⟨s', by simp only [routineLoop, if_neg hc]; exact hs'⟩

/-- C3 (amended): routine processing preempts alarm evaluation — on any tick
where an enabled routine's window contains the current time, or a routine is
marked active, the whole alarm slot is left untouched; in particular routine
activation does not clear an active alarm's markers, so `routineActive` and
`alarmActive` are not mutually exclusive (see the counterexample). -/
theorem routine_preempts_alarm (s : SysState) (h m : Int) (r : Routine) :
    (firstEnabledRoutine s.routines (h * 60 + m) = some r →
       (checkSchedule s h m).alarmActive = s.alarmActive ∧
       (checkSchedule s h m).activeAlarmId = s.activeAlarmId ∧
       (checkSchedule s h m).lastAlarmMinute = s.lastAlarmMinute ∧
       (checkSchedule s h m).wasOffBeforeAlarm = s.wasOffBeforeAlarm) ∧
    (s.routineActive = true →
       (checkSchedule s h m).alarmActive = s.alarmActive ∧
       (checkSchedule s h m).activeAlarmId = s.activeAlarmId ∧
       (checkSchedule s h m).lastAlarmMinute = s.lastAlarmMinute ∧
       (checkSchedule s h m).wasOffBeforeAlarm = s.wasOffBeforeAlarm) := by
  have hupd := update_fields s (h * 60 + m)
  constructor
  · intro hfind
    have hfind0 : firstEnabledRoutine
        (updateSuppressionWindows s (h * 60 + m)).routines (h * 60 + m) = some r := by
      rw [hupd.1]
      exact hfind
    obtain ⟨s', hs'⟩ := routineLoop_isSome (updateSuppressionWindows s (h * 60 + m))
      (h * 60 + m) m r (updateSuppressionWindows s (h * 60 + m)).routines hfind0
    have hpres := routineLoop_preserves _ _ _ _ _ hs'
    unfold checkSchedule
    dsimp only
    simp only [hs']
    exact ⟨hpres.1.trans hupd.2.2.2.1, hpres.2.1.trans hupd.2.2.2.2.2.1,
           hpres.2.2.1.trans hupd.2.2.2.2.2.2.2.1, hpres.2.2.2.1.trans hupd.2.2.2.2.2.2.2.2.2.1⟩
  · intro hact
    rcases hfe : firstEnabledRoutine s.routines (h * 60 + m) with _ | r'
    · have hnone : routineLoop (updateSuppressionWindows s (h * 60 + m)) (h * 60 + m) m
          (updateSuppressionWindows s (h * 60 + m)).routines = none := by
        apply routineLoop_eq_none
        rw [hupd.1]
        exact hfe
      have hra : (updateSuppressionWindows s (h * 60 + m)).routineActive = true := by
        rw [hupd.2.2.1]
        exact hact
      unfold checkSchedule
      dsimp only
      simp only [hnone, hra, if_true]
      exact ⟨hupd.2.2.2.1, hupd.2.2.2.2.2.1, hupd.2.2.2.2.2.2.2.1,
             hupd.2.2.2.2.2.2.2.2.2.1⟩
    · have hfind0 : firstEnabledRoutine
          (updateSuppressionWindows s (h * 60 + m)).routines (h * 60 + m) = some r' := by
        rw [hupd.1]
        exact hfe
      obtain ⟨s', hs'⟩ := routineLoop_isSome (updateSuppressionWindows s (h * 60 + m))
        (h * 60 + m) m r' (updateSuppressionWindows s (h * 60 + m)).routines hfind0
      have hpres := routineLoop_preserves _ _ _ _ _ hs'
      unfold checkSchedule
      dsimp only
      simp only [hs']
      exact ⟨hpres.1.trans hupd.2.2.2.1, hpres.2.1.trans hupd.2.2.2.2.2.1,
             hpres.2.2.1.trans hupd.2.2.2.2.2.2.2.1, hpres.2.2.2.1.trans hupd.2.2.2.2.2.2.2.2.2.1⟩

/-- States reachable from the boot state by schedule ticks, resolved
gestures, rotary steps and remote messages (direct state set, validated
routine/alarm upsert and delete, sun-sync set) — each constructor is an
operation the firmware can actually perform. -/
inductive Reachable : SysState → Prop where
  | init : Reachable initState
  | tick (s : SysState) (h m : Int) : Reachable s →
      0 ≤ h → h ≤ 23 → 0 ≤ m → m ≤ 59 → Reachable (checkSchedule s h m)
  | gesture (s : SysState) (g : Gesture) : Reachable s → Reachable (applyGestureO s g).1
  | rotary (s : SysState) (d : Int) : Reachable s → Reachable (applyRotary s d).1
  | stateSet (s : SysState) (msg : StateSetMsg) : Reachable s → Reachable (applyStateSet s msg)
  | routineUpsert (s : SysState) (d : Routine) (rs : List Routine) : Reachable s →
      routineValid d = true → upsertRoutine s.routines d = Except.ok rs →
      Reachable { s with routines := rs }
  | routineDelete (s : SysState) (i : Int) : Reachable s → 0 ≤ i → i ≤ 32767 →
      Reachable { s with routines := deleteRoutineById s.routines i }
  | alarmUpsert (s : SysState) (d : Alarm) (as : List Alarm) : Reachable s →
      alarmValid d = true → upsertAlarm s.alarms d = Except.ok as →
      Reachable { s with alarms := as }
  | alarmDelete (s : SysState) (i : Int) : Reachable s → 0 ≤ i → i ≤ 32767 →
      Reachable { s with alarms := deleteAlarmById s.alarms i }
  | sunSync (s : SysState) (active hw : Bool) : Reachable s →
      Reachable (handleSunSyncState s active hw)

/-- C3 counterexample alarm: sunrise ramp 06:00 → 07:00. -/
def c3Alarm : Alarm :=
  { id := 1, enabled := true, wake_hour := 7, wake_minute := 0,
    start_hour := 6, start_minute := 0, duration_minutes := 60 }

/-- C3 counterexample routine: window 06:30 → 07:00, overlapping the alarm. -/
def c3Routine : Routine :=
  { id := 2, enabled := true, start_hour := 6, start_minute := 30,
    end_hour := 7, end_minute := 0, brightness := 10, mode := 2 }

/-- The state after syncing the alarm and routine, a tick at 06:10 (which
activates the alarm) and a tick at 06:30 (which activates the routine). -/
def c3Witness : SysState :=
  checkSchedule
    (checkSchedule { initState with alarms := [c3Alarm], routines := [c3Routine] } 6 10) 6 30

theorem active_flags_counterexample :
    Reachable c3Witness ∧
    c3Witness.routineActive = true ∧
    c3Witness.alarmActive = true := by
  refine ⟨?_, by decide, by decide⟩
  have h1 : Reachable { initState with alarms := [c3Alarm] } :=
    Reachable.alarmUpsert initState c3Alarm [c3Alarm] Reachable.init (by decide) rfl
  have h2 : Reachable { initState with alarms := [c3Alarm], routines := [c3Routine] } :=
    Reachable.routineUpsert { initState with alarms := [c3Alarm] } c3Routine [c3Routine] h1
      (by decide) rfl
  exact Reachable.tick _ 6 30
    (Reachable.tick _ 6 10 h2 (by decide) (by decide) (by decide) (by decide))
    (by decide) (by decide) (by decide) (by decide)

/-- Concrete state for the C3 amended-theorem witness: alarm 1 marked
active while routine 2's window matches at 06:30. -/
def c3TickState : SysState :=
  { initState with alarms := [c3Alarm], routines := [c3Routine],
                   alarmActive := true, activeAlarmId := 1, lastAlarmMinute := 10 }

theorem routine_preempts_alarm_witness :
    (checkSchedule c3TickState 6 30).alarmActive = c3TickState.alarmActive ∧
    (checkSchedule c3TickState 6 30).activeAlarmId = c3TickState.activeAlarmId ∧
    (checkSchedule c3TickState 6 30).lastAlarmMinute = c3TickState.lastAlarmMinute := by
  have h := (routine_preempts_alarm c3TickState 6 30 c3Routine).1 (by decide)
  exact ⟨h.1, h.2.1, h.2.2.1⟩

end Circadian

